import Mathlib

/-!
Verification development for the Samsung Health companion screen.

The screen (src/src/app/views/Index.tsx, with an earlier variant in
src/src/app/index.tsx) is UI glue over an external health-data platform.
Each asynchronous handler is embedded as a pure function from the
component's pre-state together with the platform oracle's responses
(initialize result, granted-permission list, read result, current clock)
to the post-state and the trace of observable effects (platform calls and
alerts).  State setters become field updates; a `finally` block becomes the
corresponding field update applied on every path; a caught exception is an
`Except.error` response consumed by the function, which is total, so no
exception escapes any handler.
-/

/-- A permission entry as passed to and returned from the platform:
a pair of access type and record type. -/
structure Permission where
  accessType : String
  recordType : String
deriving Repr, DecidableEq

/-- The energy quadruple carried by a platform record (four unit
representations of one scalar); this app only passes it through. -/
structure Energy where
  inCalories : Rat
  inJoules : Rat
  inKilojoules : Rat
  inKilocalories : Rat
deriving Repr, DecidableEq

/-- Metadata as it arrives from the platform: the id may be null/absent,
modelled as an `Option`. -/
structure RawMetadata where
  id : Option String
  lastModifiedTime : String
  dataOrigin : String
deriving Repr, DecidableEq

/-- A record as returned by the platform read call, before normalization. -/
structure RawRecord where
  startTime : String
  endTime : String
  energy : Energy
  metadata : RawMetadata
deriving Repr, DecidableEq

/-- Normalized metadata held in component state: id is a plain string. -/
structure Metadata where
  id : String
  lastModifiedTime : String
  dataOrigin : String
deriving Repr, DecidableEq

/-- The CalorieRecord interface of the source: a normalized record held in
`calorieData`. -/
structure CalorieRecord where
  startTime : String
  endTime : String
  energy : Energy
  metadata : Metadata
deriving Repr, DecidableEq

/-- The payload of the platform readRecords call; the source guards against
a null/absent `records` field with `result.records || []`. -/
structure ReadResult where
  records : Option (List RawRecord)
deriving Repr, DecidableEq

/-- The component state of IndexView (src/src/app/views/Index.tsx):
the five useState values. -/
structure AppState where
  calorieData : List CalorieRecord
  isLoading : Bool
  isInitialized : Bool
  hasPermissions : Bool
  initError : Option String
deriving Repr, DecidableEq

/-- The time-range filter object built by readSampleData. -/
structure TimeRangeFilter where
  operator : String
  startTime : String
  endTime : String
deriving Repr, DecidableEq

/-- Names of the component's handler functions, used to identify which
operation a button press or a dialog's retry option invokes. -/
inductive Handler where
  | initializeHealthConnect
  | requestPermissions
  | readSampleData
deriving Repr, DecidableEq

/-- Observable effects of one handler invocation, in order: platform calls
and user-facing dialogs.  `confirmDialog` carries the two option labels and
the handler attached to the retry option. -/
inductive Effect where
  | callInit (appId : Option String) : Effect
  | callRequestPermission (perms : List Permission) : Effect
  | callReadRecords (recordType : String) (filter : TimeRangeFilter) : Effect
  | alert (title : String) (message : String) : Effect
  | confirmDialog (title : String) (message : String)
      (cancelLabel : String) (retryLabel : String) (retry : Handler) : Effect
deriving Repr, DecidableEq

/-- Whether an effect is a platform readRecords call. -/
def Effect.isReadCall : Effect → Bool
  | .callReadRecords _ _ => true
  | _ => false

/-- Whether an effect is a platform requestPermission call. -/
def Effect.isPermissionCall : Effect → Bool
  | .callRequestPermission _ => true
  | _ => false

/-- Whether an effect is a confirmation dialog. -/
def Effect.isConfirmDialog : Effect → Bool
  | .confirmDialog _ _ _ _ _ => true
  | _ => false

/-! ### ISO-8601 serialization of epoch milliseconds

`new Date(ms).toISOString()` renders the UTC instant as
`YYYY-MM-DDTHH:MM:SS.mmmZ`.  The civil date is recovered from the day
number with the standard era/day-of-era decomposition of the proleptic
Gregorian calendar, using floor division so that negative instants are
also handled the way JavaScript handles them. -/

/-- Left-pad a natural number to two digits. -/
def pad2 (n : Nat) : String :=
  if n < 10 then "0" ++ toString n else toString n

/-- Left-pad a natural number to three digits. -/
def pad3 (n : Nat) : String :=
  if n < 10 then "00" ++ toString n
  else if n < 100 then "0" ++ toString n
  else toString n

/-- Left-pad a natural number to four digits. -/
def pad4 (n : Nat) : String :=
  if n < 10 then "000" ++ toString n
  else if n < 100 then "00" ++ toString n
  else if n < 1000 then "0" ++ toString n
  else toString n

/-- Civil (year, month, day) from days since 1970-01-01, proleptic
Gregorian calendar. -/
def civilFromDays (z0 : Int) : Int × Nat × Nat :=
  let z := z0 + 719468
  let era := z.ediv 146097
  let doe := (z.emod 146097).toNat
  let yoe := (doe - doe / 1460 + doe / 36524 - doe / 146096) / 365
  let doy := doe - (365 * yoe + yoe / 4 - yoe / 100)
  let mp := (5 * doy + 2) / 153
  let d := doy - (153 * mp + 2) / 5 + 1
  let m := if mp < 10 then mp + 3 else mp - 9
  let y : Int := (yoe : Int) + era * 400 + (if m ≤ 2 then 1 else 0)
  (y, m, d)

/-- `Date(ms).toISOString()`: the UTC instant at `ms` milliseconds since
the epoch, rendered as `YYYY-MM-DDTHH:MM:SS.mmmZ`. -/
def msToISOString (ms : Int) : String :=
  let days := ms.ediv 86400000
  let msOfDay := (ms.emod 86400000).toNat
  let c := civilFromDays days
  let hh := msOfDay / 3600000
  let mm := msOfDay % 3600000 / 60000
  let ss := msOfDay % 60000 / 1000
  let mmm := msOfDay % 1000
  pad4 c.1.toNat ++ "-" ++ pad2 c.2.1 ++ "-" ++ pad2 c.2.2 ++ "T" ++
    pad2 hh ++ ":" ++ pad2 mm ++ ":" ++ pad2 ss ++ "." ++ pad3 mmm ++ "Z"

/-! ### The handlers of IndexView (src/src/app/views/Index.tsx) -/

/-- The single permission entry this app ever requests. -/
def calorieReadPermission : Permission :=
  { accessType := "read", recordType := "ActiveCaloriesBurned" }

/-- The predicate applied to the granted list in checkPermissions and
requestPermissions:
`grantedPermissions.some(p => p.recordType === 'ActiveCaloriesBurned' && p.accessType === 'read')`. -/
def hasCaloriePermission (granted : List Permission) : Bool :=
  granted.any fun p =>
    p.recordType == "ActiveCaloriesBurned" && p.accessType == "read"

/-- checkPermissions (views/Index.tsx lines 65-82): issues the platform
requestPermission call; on success sets `hasPermissions` from the granted
list; on a thrown error sets `initError` and leaves `hasPermissions`
unchanged.  The caught exception does not escape. -/
def checkPermissions (s : AppState)
    (permRes : Except String (List Permission)) : AppState × List Effect :=
  match permRes with
  | Except.ok granted =>
      ({ s with hasPermissions := hasCaloriePermission granted },
       [Effect.callRequestPermission [calorieReadPermission]])
  | Except.error e =>
      ({ s with initError := some ("Permission check error: " ++ e) },
       [Effect.callRequestPermission [calorieReadPermission]])

/-- initializeHealthConnect (views/Index.tsx lines 42-63): sets loading,
clears the error, awaits platform initialize("SHealthConnect"); a false
result sets the failure message and returns before any permission call; a
true result proceeds to checkPermissions; a thrown error sets `initError`
and leaves `isInitialized` unchanged.  The finally block clears loading on
every path. -/
def initializeHealthConnect (s : AppState)
    (initRes : Except String Bool)
    (permRes : Except String (List Permission)) : AppState × List Effect :=
  let s0 := { s with isLoading := true, initError := none }
  match initRes with
  | Except.error e =>
      ({ s0 with initError := some ("Initialization error: " ++ e),
                 isLoading := false },
       [Effect.callInit (some "SHealthConnect")])
  | Except.ok initialized =>
      let s1 := { s0 with isInitialized := initialized }
      if initialized then
        let out := checkPermissions s1 permRes
        ({ out.1 with isLoading := false },
         Effect.callInit (some "SHealthConnect") :: out.2)
      else
        ({ s1 with
            initError := some
              "Failed to initialize Health Connect. Make sure Samsung Health is installed.",
            isLoading := false },
         [Effect.callInit (some "SHealthConnect")])

/-- requestPermissions (views/Index.tsx lines 84-115): sets loading, clears
the error, issues the platform requestPermission call; on success sets
`hasPermissions` from the granted list and, when the calorie permission was
not granted, surfaces a Cancel / Try Again confirmation whose retry option
invokes requestPermissions again; on a thrown error sets `initError`.  The
finally block clears loading on every path. -/
def requestPermissions (s : AppState)
    (permRes : Except String (List Permission)) : AppState × List Effect :=
  match permRes with
  | Except.ok granted =>
      let h := hasCaloriePermission granted
      ({ s with initError := none, hasPermissions := h, isLoading := false },
       Effect.callRequestPermission [calorieReadPermission] ::
         (if h then [] else
           [Effect.confirmDialog "Permissions Required"
              "Please grant access to Active Calories Burned data in Samsung Health to use this feature."
              "Cancel" "Try Again" Handler.requestPermissions]))
  | Except.error e =>
      ({ s with initError := some ("Permission request error: " ++ e),
                isLoading := false },
       [Effect.callRequestPermission [calorieReadPermission]])

/-- The record mapping applied to each returned record (views/Index.tsx
lines 139-146): all fields are spread verbatim, and metadata is rebuilt
with `id: record.metadata.id ?? ""` and the other two fields passed
through. -/
def normalizeRecord (r : RawRecord) : CalorieRecord :=
  { startTime := r.startTime
    endTime := r.endTime
    energy := r.energy
    metadata :=
      { id := r.metadata.id.getD ""
        lastModifiedTime := r.metadata.lastModifiedTime
        dataOrigin := r.metadata.dataOrigin } }

/-- readSampleData (views/Index.tsx lines 117-153): guarded by
`isInitialized && hasPermissions` — when the guard fails it alerts and
returns without touching state or the platform; otherwise it computes the
7-day window ending at the current clock, issues one readRecords call, and
on success replaces `calorieData` with the normalized records
(`result.records || []`), on failure alerts with the raw error.  The
finally block clears loading on both of those paths; the guard path
returns before loading is ever set. -/
def readSampleData (s : AppState) (now : Int)
    (readRes : Except String ReadResult) : AppState × List Effect :=
  if !s.isInitialized || !s.hasPermissions then
    (s, [Effect.alert "Error"
          "Please ensure Health Connect is initialized and permissions are granted."])
  else
    let endTime := msToISOString now
    let startTime := msToISOString (now - 7 * 24 * 60 * 60 * 1000)
    let filter : TimeRangeFilter :=
      { operator := "between", startTime := startTime, endTime := endTime }
    match readRes with
    | Except.ok result =>
        ({ s with
            calorieData := (result.records.getD []).map normalizeRecord,
            isLoading := false },
         [Effect.callReadRecords "ActiveCaloriesBurned" filter])
    | Except.error e =>
        ({ s with isLoading := false },
         [Effect.callReadRecords "ActiveCaloriesBurned" filter,
          Effect.alert "Error" ("Failed to read health data: " ++ e)])

/-- Dispatch of a handler name to the handler it denotes, over the full
oracle input; used to state that a button or a dialog's retry option
re-invokes a specific operation. -/
structure HandlerInput where
  initRes : Except String Bool
  permRes : Except String (List Permission)
  now : Int
  readRes : Except String ReadResult

/-- Running a named handler on a state and an oracle input. -/
def runHandler : Handler → AppState → HandlerInput → AppState × List Effect
  | .initializeHealthConnect, s, inp => initializeHealthConnect s inp.initRes inp.permRes
  | .requestPermissions, s, inp => requestPermissions s inp.permRes
  | .readSampleData, s, inp => readSampleData s inp.now inp.readRes

/-! ### The render function of IndexView (views/Index.tsx lines 156-294) -/

/-- The setup screen: error box, the two checklist markers, the single
action button (with the handler it invokes) and its disabled flag. -/
structure SetupScreen where
  errorBox : Option String
  initializedMark : Bool
  permissionsMark : Bool
  actionButton : Option Handler
  actionDisabled : Bool
deriving Repr, DecidableEq

/-- One data card of the ready screen, carrying the raw values the card
formats (locale formatting itself is outside this model). -/
structure RecordCard where
  indexLabel : Nat
  startTime : String
  endTime : String
  kilocalories : Rat
  kilojoules : Rat
  dataOrigin : String
deriving Repr, DecidableEq

/-- The ready screen: refresh button disabled flag, empty-state message
visibility, and one card per record in list order. -/
structure ReadyScreen where
  refreshDisabled : Bool
  showEmptyMessage : Bool
  cards : List RecordCard
deriving Repr, DecidableEq

/-- The two mutually exclusive render modes of the screen. -/
inductive Render where
  | setup (scr : SetupScreen) : Render
  | ready (scr : ReadyScreen) : Render
deriving Repr, DecidableEq

/-- Whether a render result is the ready (data list) mode. -/
def Render.isReady : Render → Bool
  | .ready _ => true
  | .setup _ => false

/-- The action button of a setup render, none for a ready render. -/
def Render.setupActionButton : Render → Option Handler
  | .setup scr => scr.actionButton
  | .ready _ => none

/-- The disabled flag of the mode's action button (setup action button, or
the ready screen's refresh button). -/
def Render.actionDisabled : Render → Bool
  | .setup scr => scr.actionDisabled
  | .ready scr => scr.refreshDisabled

/-- The render body of IndexView: the setup screen when
`!isInitialized || !hasPermissions`, with the initialize button when not
initialized, else the grant-permissions button, disabled while loading;
otherwise the ready screen with the refresh button (disabled while
loading), the empty-state message when the list is empty and not loading,
and one card per record in list order. -/
def render (s : AppState) : Render :=
  if !s.isInitialized || !s.hasPermissions then
    Render.setup
      { errorBox := s.initError
        initializedMark := s.isInitialized
        permissionsMark := s.hasPermissions
        actionButton :=
          if !s.isInitialized then some Handler.initializeHealthConnect
          else if !s.hasPermissions then some Handler.requestPermissions
          else none
        actionDisabled := s.isLoading }
  else
    Render.ready
      { refreshDisabled := s.isLoading
        showEmptyMessage := s.calorieData.length == 0 && !s.isLoading
        cards := s.calorieData.enum.map fun ir =>
          { indexLabel := ir.1 + 1
            startTime := ir.2.startTime
            endTime := ir.2.endTime
            kilocalories := ir.2.energy.inKilocalories
            kilojoules := ir.2.energy.inKilojoules
            dataOrigin := ir.2.metadata.dataOrigin } }

/-! ### The earlier page variant (src/src/app/index.tsx) -/

namespace Page

/-- The component state of the Page variant: it has no hasPermissions or
initError state. -/
structure PageState where
  calorieData : List CalorieRecord
  isLoading : Bool
  isInitialized : Bool
deriving Repr, DecidableEq

/-- readSampleData of src/src/app/index.tsx (lines 32-77): initializes,
requests the permission (result unused), computes the same 7-day window
ending at the current clock and issues the readRecords call; any thrown
error is alerted; the finally block clears loading on every path. -/
def readSampleData (s : PageState)
    (initRes : Except String Bool)
    (permRes : Except String (List Permission))
    (now : Int)
    (readRes : Except String ReadResult) : PageState × List Effect :=
  match initRes with
  | Except.error e =>
      ({ s with isLoading := false },
       [Effect.callInit none,
        Effect.alert "Error" ("Failed to read health data: " ++ e)])
  | Except.ok false =>
      ({ s with isInitialized := false, isLoading := false },
       [Effect.callInit none,
        Effect.alert "Error" "Failed to initialize Health Connect"])
  | Except.ok true =>
      match permRes with
      | Except.error e =>
          ({ s with isInitialized := true, isLoading := false },
           [Effect.callInit none,
            Effect.callRequestPermission [calorieReadPermission],
            Effect.alert "Error" ("Failed to read health data: " ++ e)])
      | Except.ok _granted =>
          let filter : TimeRangeFilter :=
            { operator := "between"
              startTime := msToISOString (now - 7 * 24 * 60 * 60 * 1000)
              endTime := msToISOString now }
          match readRes with
          | Except.ok result =>
              ({ s with
                  isInitialized := true
                  calorieData := (result.records.getD []).map normalizeRecord
                  isLoading := false },
               [Effect.callInit none,
                Effect.callRequestPermission [calorieReadPermission],
                Effect.callReadRecords "ActiveCaloriesBurned" filter])
          | Except.error e =>
              ({ s with isInitialized := true, isLoading := false },
               [Effect.callInit none,
                Effect.callRequestPermission [calorieReadPermission],
                Effect.callReadRecords "ActiveCaloriesBurned" filter,
                Effect.alert "Error" ("Failed to read health data: " ++ e)])

end Page

/-! ### The tab shell -/

/-- A navigable tab: the Home tab hosting this screen, or any other tab a
future extension may add. -/
inductive Tab where
  | home
  | other (name : String)
deriving Repr, DecidableEq

/-- The tab shell's state: which tab is active. -/
structure ShellState where
  activeTab : Tab
deriving Repr, DecidableEq

/-- Modelled from the spec: the tab shell component is not among the
repository's source files — only its interface is visible there
(IndexViewProps in views/Index.tsx exposes the externally invokable
`switchTab` operation).  Per the spec, the shell owns the active-tab state
and `switchTab` sets the active tab. -/
def switchTab (s : ShellState) (t : Tab) : ShellState :=
  { s with activeTab := t }

/-- Modelled from the spec: the shell intercepts the device back action —
if a non-Home tab is active it switches to Home and suppresses the default
back behavior (returns true), otherwise it leaves the state unchanged and
defers to the default back behavior (returns false). -/
def onBackAction (s : ShellState) : ShellState × Bool :=
  if s.activeTab = Tab.home then (s, false)
  else ({ s with activeTab := Tab.home }, true)

/-! ### Shared lemmas and demonstration inputs -/

/-- The granted-list predicate holds exactly when the list contains a
read access entry for the ActiveCaloriesBurned record type. -/
theorem hasCaloriePermission_iff (granted : List Permission) :
    hasCaloriePermission granted = true ↔
      ∃ p ∈ granted,
        p.accessType = "read" ∧ p.recordType = "ActiveCaloriesBurned" := by
  simp [hasCaloriePermission, List.any_eq_true, Bool.and_eq_true, beq_iff_eq,
    and_comm]

/-- A ready state: initialized with permissions, not loading. -/
def demoReady : AppState :=
  { calorieData := []
    isLoading := false
    isInitialized := true
    hasPermissions := true
    initError := none }

/-- A state that fails the fetch guard: not initialized. -/
def demoNoInit : AppState :=
  { calorieData := []
    isLoading := false
    isInitialized := false
    hasPermissions := true
    initError := none }

/-- A concrete platform record with an absent metadata id. -/
def demoRaw : RawRecord :=
  { startTime := "2024-01-02T10:00:00.000Z"
    endTime := "2024-01-02T11:00:00.000Z"
    energy :=
      { inCalories := 500000
        inJoules := 2092000
        inKilojoules := 2092
        inKilocalories := 500 }
    metadata :=
      { id := none
        lastModifiedTime := "2024-01-02T12:00:00.000Z"
        dataOrigin := "com.samsung.health" } }

/-! ### Claims -/

/-- Claim C1: for every permission-result list returned by the platform's
requestPermission call, the hasPermissions flag set by checkPermissions
and by requestPermissions is true if and only if the list contains an
entry whose accessType is read and whose recordType is
ActiveCaloriesBurned. -/
theorem hasPermissions_iff_granted (s : AppState) (granted : List Permission) :
    ((checkPermissions s (Except.ok granted)).1.hasPermissions = true ↔
      ∃ p ∈ granted,
        p.accessType = "read" ∧ p.recordType = "ActiveCaloriesBurned") ∧
    ((requestPermissions s (Except.ok granted)).1.hasPermissions = true ↔
      ∃ p ∈ granted,
        p.accessType = "read" ∧ p.recordType = "ActiveCaloriesBurned") := by
  refine ⟨?_, ?_⟩ <;>
    simpa [checkPermissions, requestPermissions] using
      hasCaloriePermission_iff granted

/-- Claim C2: in every state with isInitialized or hasPermissions false,
readSampleData surfaces the guard error alert and performs no platform
read call, leaving the whole state (calorieData and isLoading included)
unchanged. -/
theorem readSampleData_guard (s : AppState) (now : Int)
    (readRes : Except String ReadResult)
    (h : s.isInitialized = false ∨ s.hasPermissions = false) :
    readSampleData s now readRes =
      (s, [Effect.alert "Error"
        "Please ensure Health Connect is initialized and permissions are granted."]) ∧
    (readSampleData s now readRes).2.filter Effect.isReadCall = [] := by
  have hg : (!s.isInitialized || !s.hasPermissions) = true := by
    rcases h with h | h <;> simp [h]
  refine ⟨?_, ?_⟩ <;> simp [readSampleData, hg, Effect.isReadCall]

/-- Witness for claim C2: the guard fires in the concrete uninitialized
state. -/
theorem readSampleData_guard_witness :
    readSampleData demoNoInit 0 (Except.error "boom") =
      (demoNoInit, [Effect.alert "Error"
        "Please ensure Health Connect is initialized and permissions are granted."]) ∧
    (readSampleData demoNoInit 0 (Except.error "boom")).2.filter
      Effect.isReadCall = [] :=
  readSampleData_guard demoNoInit 0 (Except.error "boom") (Or.inl rfl)

/-- Claim C10: a thrown platform initialize call leaves isInitialized at
its previous value and records a message in initError; a thrown platform
requestPermission call in checkPermissions leaves hasPermissions at its
previous value and records a message in initError; both handlers are
total functions of the error response, so the exception escapes neither. -/
theorem platform_throw_atomicity (s : AppState) (e : String)
    (permRes : Except String (List Permission))
    (s2 : AppState) (e2 : String) :
    (initializeHealthConnect s (Except.error e) permRes).1.isInitialized =
      s.isInitialized ∧
    (initializeHealthConnect s (Except.error e) permRes).1.initError =
      some ("Initialization error: " ++ e) ∧
    (checkPermissions s2 (Except.error e2)).1.hasPermissions =
      s2.hasPermissions ∧
    (checkPermissions s2 (Except.error e2)).1.initError =
      some ("Permission check error: " ++ e2) :=
  ⟨rfl, rfl, rfl, rfl⟩

/-- Claim C3: under the fetch precondition, readSampleData issues exactly
one range query, with operator between and the window
endTime = now, startTime = now - 7*24h, both serialized to ISO-8601 (the
same window is computed by the readSampleData of src/src/app/index.tsx);
at now = 2024-01-08T00:00:00Z (epoch ms 1704672000000) the serialized
window is 2024-01-01T00:00:00.000Z to 2024-01-08T00:00:00.000Z, the
ISO-8601 forms of the instants 2024-01-01T00:00:00Z and
2024-01-08T00:00:00Z. -/
theorem readSampleData_window (s : AppState) (now : Int)
    (readRes : Except String ReadResult)
    (h1 : s.isInitialized = true) (h2 : s.hasPermissions = true) :
    (readSampleData s now readRes).2.filter Effect.isReadCall =
      [Effect.callReadRecords "ActiveCaloriesBurned"
        { operator := "between"
          startTime := msToISOString (now - 7 * 24 * 60 * 60 * 1000)
          endTime := msToISOString now }] ∧
    (∀ (sp : Page.PageState) (granted : List Permission)
        (rRes : Except String ReadResult),
      (Page.readSampleData sp (Except.ok true) (Except.ok granted) now
          rRes).2.filter Effect.isReadCall =
        [Effect.callReadRecords "ActiveCaloriesBurned"
          { operator := "between"
            startTime := msToISOString (now - 7 * 24 * 60 * 60 * 1000)
            endTime := msToISOString now }]) ∧
    msToISOString 1704672000000 = "2024-01-08T00:00:00.000Z" ∧
    msToISOString (1704672000000 - 7 * 24 * 60 * 60 * 1000) =
      "2024-01-01T00:00:00.000Z" := by
  refine ⟨?_, ?_, by rfl, by rfl⟩
  · cases readRes <;> simp [readSampleData, h1, h2, Effect.isReadCall]
  · intro sp granted rRes
    cases rRes <;> simp [Page.readSampleData, Effect.isReadCall]

/-- Witness for claim C3: the single read call at the concrete instant
2024-01-08T00:00:00Z in the ready state. -/
theorem readSampleData_window_witness :
    (readSampleData demoReady 1704672000000
        (Except.ok { records := some [] })).2.filter Effect.isReadCall =
      [Effect.callReadRecords "ActiveCaloriesBurned"
        { operator := "between"
          startTime := msToISOString (1704672000000 - 7 * 24 * 60 * 60 * 1000)
          endTime := msToISOString 1704672000000 }] ∧
    msToISOString 1704672000000 = "2024-01-08T00:00:00.000Z" :=
  ⟨(readSampleData_window demoReady 1704672000000
      (Except.ok { records := some [] }) rfl rfl).1,
   (readSampleData_window demoReady 1704672000000
      (Except.ok { records := some [] }) rfl rfl).2.2.1⟩

/-- Claim C4: under the fetch precondition, a successful read of a record
list replaces calorieData with exactly the normalized records in returned
order (independently of the prior list), one output entry per input
record; normalization copies every field verbatim except metadata, whose
id is the source id when present and the empty string exactly when the
source id is null/absent, and whose lastModifiedTime and dataOrigin pass
through unmodified. -/
theorem readSampleData_success_normalizes (s : AppState) (now : Int)
    (records : List RawRecord)
    (h1 : s.isInitialized = true) (h2 : s.hasPermissions = true) :
    (readSampleData s now
        (Except.ok { records := some records })).1.calorieData =
      records.map normalizeRecord ∧
    (records.map normalizeRecord).length = records.length ∧
    ∀ r : RawRecord,
      (normalizeRecord r).startTime = r.startTime ∧
      (normalizeRecord r).endTime = r.endTime ∧
      (normalizeRecord r).energy = r.energy ∧
      (normalizeRecord r).metadata.lastModifiedTime =
        r.metadata.lastModifiedTime ∧
      (normalizeRecord r).metadata.dataOrigin = r.metadata.dataOrigin ∧
      (∀ x : String,
        r.metadata.id = some x → (normalizeRecord r).metadata.id = x) ∧
      (r.metadata.id = none → (normalizeRecord r).metadata.id = "") := by
  refine ⟨?_, by simp, ?_⟩
  · simp [readSampleData, h1, h2]
  · intro r
    refine ⟨rfl, rfl, rfl, rfl, rfl, ?_, ?_⟩
    · intro x hx; simp [normalizeRecord, hx]
    · intro hx; simp [normalizeRecord, hx]

/-- Witness for claim C4: one concrete record with an absent id is
normalized and fully replaces the list. -/
theorem readSampleData_success_normalizes_witness :
    (readSampleData demoReady 0
        (Except.ok { records := some [demoRaw] })).1.calorieData =
      [demoRaw].map normalizeRecord :=
  (readSampleData_success_normalizes demoReady 0 [demoRaw] rfl rfl).1

/-- Claim C5: under the fetch precondition a failed read leaves the prior
calorieData untouched, surfaces the raw error through a blocking alert,
and ends with isLoading false; isLoading is also false after a successful
read; the guard path never sets isLoading, so whenever readSampleData
starts with isLoading false it ends with isLoading false in every case —
success, failure, or guard rejection. -/
theorem readSampleData_failure_preserves (s : AppState) (now : Int)
    (readRes : Except String ReadResult) :
    (s.isInitialized = true → s.hasPermissions = true →
      ∀ e : String, readRes = Except.error e →
        (readSampleData s now readRes).1.calorieData = s.calorieData ∧
        Effect.alert "Error" ("Failed to read health data: " ++ e) ∈
          (readSampleData s now readRes).2 ∧
        (readSampleData s now readRes).1.isLoading = false) ∧
    (s.isLoading = false →
      (readSampleData s now readRes).1.isLoading = false) ∧
    ((s.isInitialized = false ∨ s.hasPermissions = false) →
      (readSampleData s now readRes).1.isLoading = s.isLoading) := by
  rcases s with ⟨cd, il, ii, hp, ie⟩
  cases ii <;> cases hp <;> cases readRes <;>
    simp [readSampleData]

/-- Witness for claim C5: a concrete failed read in the ready state keeps
the list, alerts, and clears loading. -/
theorem readSampleData_failure_preserves_witness :
    (readSampleData demoReady 0 (Except.error "boom")).1.calorieData =
      demoReady.calorieData ∧
    Effect.alert "Error" ("Failed to read health data: " ++ "boom") ∈
      (readSampleData demoReady 0 (Except.error "boom")).2 ∧
    (readSampleData demoReady 0 (Except.error "boom")).1.isLoading = false :=
  (readSampleData_failure_preserves demoReady 0 (Except.error "boom")).1
    rfl rfl "boom" rfl

/-- Claim C6: a false platform initialize result leaves the state failed —
isInitialized false with the user-facing failure message in initError —
and the handler makes no permission call; the setup screen rendered from
that state shows the button whose handler is initializeHealthConnect, and
running that handler name is exactly the initializeHealthConnect
operation, so the retry button re-invokes it; a true initialize result
proceeds to permission evaluation (a platform permission call is made). -/
theorem initFalse_behavior (s : AppState)
    (permRes : Except String (List Permission)) :
    (initializeHealthConnect s (Except.ok false) permRes).1.isInitialized =
      false ∧
    (initializeHealthConnect s (Except.ok false) permRes).1.initError =
      some "Failed to initialize Health Connect. Make sure Samsung Health is installed." ∧
    (initializeHealthConnect s (Except.ok false) permRes).2.filter
      Effect.isPermissionCall = [] ∧
    (render (initializeHealthConnect s
        (Except.ok false) permRes).1).setupActionButton =
      some Handler.initializeHealthConnect ∧
    (∀ (t : AppState) (inp : HandlerInput),
      runHandler Handler.initializeHealthConnect t inp =
        initializeHealthConnect t inp.initRes inp.permRes) ∧
    (initializeHealthConnect s (Except.ok true) permRes).2.any
      Effect.isPermissionCall = true := by
  refine ⟨rfl, rfl, ?_, rfl, fun t inp => rfl, ?_⟩
  · simp [initializeHealthConnect, Effect.isPermissionCall]
  · cases permRes <;>
      simp [initializeHealthConnect, checkPermissions, Effect.isPermissionCall]

/-- Claim C7: the presentation is a function of state rendering exactly
one of two mutually exclusive modes — the ready mode exactly when
isInitialized and hasPermissions are both true — and in setup mode
exactly one action button is shown, the initialize button when
isInitialized is false and otherwise the request-permission button, and
the mode's action button is disabled exactly while isLoading is true. -/
theorem render_modes (s : AppState) :
    (render s).isReady = (s.isInitialized && s.hasPermissions) ∧
    ((s.isInitialized && s.hasPermissions) = false →
      (render s).setupActionButton =
        some (if s.isInitialized then Handler.requestPermissions
              else Handler.initializeHealthConnect)) ∧
    (render s).actionDisabled = s.isLoading := by
  rcases s with ⟨cd, il, ii, hp, ie⟩
  cases ii <;> cases hp <;>
    simp [render, Render.isReady, Render.setupActionButton,
      Render.actionDisabled]

/-- Witness for claim C7: the concrete uninitialized state renders the
setup mode with the initialize button. -/
theorem render_modes_witness :
    (render demoNoInit).setupActionButton =
      some (if demoNoInit.isInitialized then Handler.requestPermissions
            else Handler.initializeHealthConnect) :=
  (render_modes demoNoInit).2.1 rfl

/-- Claim C8: when the granted list returned to requestPermissions lacks
a read entry for ActiveCaloriesBurned, a Cancel / Try Again confirmation
dialog is surfaced whose retry option carries the requestPermissions
handler, and running that handler name is exactly the requestPermissions
operation on the component state — the same operation, with no backoff
state and no attempt counter anywhere in AppState; when the entry is
granted, no confirmation dialog is surfaced. -/
theorem requestPermissions_denial_retry (s : AppState)
    (granted : List Permission) :
    ((¬ ∃ p ∈ granted,
        p.accessType = "read" ∧ p.recordType = "ActiveCaloriesBurned") →
      Effect.confirmDialog "Permissions Required"
        "Please grant access to Active Calories Burned data in Samsung Health to use this feature."
        "Cancel" "Try Again" Handler.requestPermissions ∈
        (requestPermissions s (Except.ok granted)).2) ∧
    ((∃ p ∈ granted,
        p.accessType = "read" ∧ p.recordType = "ActiveCaloriesBurned") →
      (requestPermissions s (Except.ok granted)).2.filter
        Effect.isConfirmDialog = []) ∧
    (∀ (t : AppState) (inp : HandlerInput),
      runHandler Handler.requestPermissions t inp =
        requestPermissions t inp.permRes) := by
  refine ⟨?_, ?_, fun t inp => rfl⟩
  · intro h
    have hfalse : hasCaloriePermission granted = false :=
      Bool.eq_false_iff.mpr fun hc =>
        h ((hasCaloriePermission_iff granted).mp hc)
    simp [requestPermissions, hfalse]
  · intro h
    have htrue : hasCaloriePermission granted = true :=
      (hasCaloriePermission_iff granted).mpr h
    simp [requestPermissions, htrue, Effect.isConfirmDialog]

/-- Witness for claim C8: an empty granted list surfaces the retry
dialog. -/
theorem requestPermissions_denial_retry_witness :
    Effect.confirmDialog "Permissions Required"
      "Please grant access to Active Calories Burned data in Samsung Health to use this feature."
      "Cancel" "Try Again" Handler.requestPermissions ∈
      (requestPermissions demoReady (Except.ok [])).2 :=
  (requestPermissions_denial_retry demoReady []).1 (by simp)

/-- Claim C9: the tab shell's back-action interception switches a non-Home
active tab to Home and suppresses default back behavior, leaves the state
unchanged and defers to default back behavior when Home is already
active, and the externally invokable switchTab operation sets the active
tab. -/
theorem tabShell_back_behavior (s : ShellState) :
    (s.activeTab ≠ Tab.home →
      onBackAction s = ({ activeTab := Tab.home }, true)) ∧
    (s.activeTab = Tab.home → onBackAction s = (s, false)) ∧
    (∀ t : Tab, (switchTab s t).activeTab = t) := by
  refine ⟨?_, ?_, fun t => rfl⟩
  · intro h; simp [onBackAction, h]
  · intro h; simp [onBackAction, h]

/-- Witness for claim C9: back pressed on a concrete non-Home tab
activates Home and suppresses default back; back pressed on Home defers
to default back. -/
theorem tabShell_back_behavior_witness :
    onBackAction { activeTab := Tab.other "Settings" } =
      ({ activeTab := Tab.home }, true) ∧
    onBackAction { activeTab := Tab.home } =
      ({ activeTab := Tab.home }, false) :=
  ⟨(tabShell_back_behavior { activeTab := Tab.other "Settings" }).1
      (by decide),
   (tabShell_back_behavior { activeTab := Tab.home }).2.1 rfl⟩
